import Mathlib

/-!
Verification of the codegen Value abstraction of the Peloton SQL JIT compiler
(src/include/codegen/value.h).  Only the class declaration is in the tree; the
member function bodies (src/codegen/value.cpp) are absent, so the behavior of
each operation is modelled from the specification document, at two levels:

* a symbolic level mirroring the `Value` class itself (a type descriptor plus
  up to three symbolic registers), used for the constructor/accessor contract,
  the IsNull/IsNotNull contract and the materialization round trip;
* a runtime level giving the denotation of the code the operations generate
  (null propagation for comparisons, the sort order, three-valued logic,
  arithmetic overflow policy, min/max null skipping and the PHI merge).
-/

namespace Peloton
namespace Codegen

/-- Enumerated SQL type identity carried by a type descriptor. -/
inductive TypeId
  | invalid
  | boolean
  | tinyint
  | smallint
  | integer
  | bigint
  | decimal
  | timestamp
  | date
  | varchar
  | varbinary
  deriving DecidableEq, Repr

/-- Whether a SQL type carries an explicit length register alongside its
data. -/
def TypeId.isVariableLength : TypeId → Bool
  | .varchar => true
  | .varbinary => true
  | _ => false

/-- The type descriptor (type::Type): enumerated type identity plus nullability
flag.  The reference to the external operator dispatch table is shared, opaque
state and is not part of the descriptor identity modelled here. -/
structure SqlType where
  type_id : TypeId
  nullable : Bool
  deriving DecidableEq, Repr

/-- A symbolic register handle (an llvm::Value pointer in the source; `none`
models a null pointer, i.e. an absent register). -/
abbrev Reg := Nat

/-- The codegen Value: a type descriptor plus up to three symbolic registers
(data, optional length, optional null indicator), exactly the four fields of
class Value in value.h. -/
structure Value where
  type_ : SqlType
  value_ : Option Reg
  length_ : Option Reg
  null_ : Option Reg
  deriving DecidableEq, Repr

/-- Value::Value(type, value, length, is_null).  Modelled from the spec: the
constructor body is not under src/ (value.h only declares it); the spec's data
model says a Value wraps its type descriptor and its registers unchanged. -/
def Value.construct (t : SqlType) (value length is_null : Option Reg) : Value :=
  { type_ := t, value_ := value, length_ := length, null_ := is_null }

/-- Value::Value(): the default/uninitialized sentinel.  Modelled from the
spec: the default constructor body is not under src/; the spec's data model
says the data register is present unless the Value is this sentinel, so the
sentinel carries no registers and an invalid type identity. -/
def Value.mkDefault : Value :=
  { type_ := { type_id := .invalid, nullable := false },
    value_ := none, length_ := none, null_ := none }

/-- Value::GetType (inline in value.h). -/
def Value.GetType (v : Value) : SqlType := v.type_

/-- Value::GetValue (inline in value.h). -/
def Value.GetValue (v : Value) : Option Reg := v.value_

/-- Value::GetLength (inline in value.h). -/
def Value.GetLength (v : Value) : Option Reg := v.length_

/-- Value::IsNullable (inline in value.h): reads the type descriptor's
nullability flag. -/
def Value.IsNullable (v : Value) : Bool := v.GetType.nullable

/-- A symbolic boolean produced by IsNull/IsNotNull: either a compile-time
constant (no register materialized) or a read / negated read of a stored
null-indicator register. -/
inductive SymBool
  | const (b : Bool)
  | read (r : Reg)
  | negRead (r : Reg)
  deriving DecidableEq, Repr

/-- Whether a symbolic boolean materializes a register. -/
def SymBool.usesRegister : SymBool → Bool
  | .const _ => false
  | .read _ => true
  | .negRead _ => true

/-- Value::IsNull.  Modelled from the spec: the body is not under src/; for a
non-nullable type the result is the compile-time constant false (no register
materialized), otherwise it reads the stored null indicator. -/
def Value.IsNull (v : Value) : SymBool :=
  if v.IsNullable then
    match v.null_ with
    | some r => .read r
    | none => .const false
  else .const false

/-- Value::IsNotNull.  Modelled from the spec: the body is not under src/; for
a non-nullable type the result is the compile-time constant true, otherwise it
negates the stored null indicator. -/
def Value.IsNotNull (v : Value) : SymBool :=
  if v.IsNullable then
    match v.null_ with
    | some r => .negRead r
    | none => .const true
  else .const true

/-- Value::ValuesForMaterialization.  Modelled from the spec: the body is not
under src/; it exposes the raw data and length registers together with the
computed null indicator (a compile-time constant false when the type is not
nullable). -/
def Value.ValuesForMaterialization (v : Value) : Option Reg × Option Reg × SymBool :=
  (v.GetValue, v.GetLength, v.IsNull)

/-- Value::ValueFromMaterialization.  Modelled from the spec: the body is not
under src/; it reconstructs a Value from a type descriptor and stored raw
registers, reattaching the null-indicator register only when the type is
nullable (a non-nullable type stores no indicator). -/
def Value.ValueFromMaterialization (t : SqlType) (val len : Option Reg)
    (null : SymBool) : Value :=
  { type_ := t, value_ := val, length_ := len,
    null_ :=
      if t.nullable then
        match null with
        | .read r => some r
        | .negRead _ => none
        | .const _ => none
      else none }

/-- Observable equivalence of two codegen Values: same type, same symbolic
null status, same data register and same length register. -/
def Value.obsEq (a b : Value) : Prop :=
  a.GetType = b.GetType ∧ a.IsNull = b.IsNull ∧
    a.GetValue = b.GetValue ∧ a.GetLength = b.GetLength

/-- Runtime denotation of a SQL value inside the generated code: the data
payload, a length for variable-length data, and the runtime null flag. -/
structure RtValue where
  data : Int
  len : Nat
  isNull : Bool
  deriving DecidableEq, Repr

/-- Runtime denotation of a boolean result (data bit plus null bit). -/
structure RtBool where
  data : Bool
  isNull : Bool
  deriving DecidableEq, Repr, Fintype

/-- Runtime observable equivalence of boolean results: same null status, and
the same data bit whenever the result is non-null (the data bit of a null
result is unspecified). -/
def RtBool.obsEq (a b : RtBool) : Prop :=
  a.isNull = b.isNull ∧ (a.isNull = false → a.data = b.data)

/-- The three-valued truth value denoted by a runtime boolean: none when null,
otherwise its data bit. -/
def RtBool.toTri (c : RtBool) : Option Bool :=
  if c.isNull then none else some c.data

/-- Runtime behavior of the code generated by Value::CompareEq.  Modelled from
the spec: the body is not under src/; the result's null indicator is the OR of
the operands' null conditions and the data bit computes equality of the data
payloads (meaningful only when both operands are non-null). -/
def CompareEq (a b : RtValue) : RtBool :=
  { data := decide (a.data = b.data), isNull := a.isNull || b.isNull }

/-- Runtime behavior of the code generated by Value::CompareForSort.  Modelled
from the spec: the body is not under src/; the result is a definite signed
ordering token, with NULLs forming a single equivalence class placed before
all non-null values and non-null values ordered by data payload. -/
def CompareForSort (a b : RtValue) : Int :=
  if a.isNull && b.isNull then 0
  else if a.isNull then -1
  else if b.isNull then 1
  else if a.data < b.data then -1
  else if b.data < a.data then 1
  else 0

/-- Runtime behavior of the code generated by Value::LogicalAnd.  Modelled
from the spec: the body is not under src/; the SQL three-valued AND truth
table (false is absorbing, null with anything non-false is null). -/
def LogicalAnd (a b : RtBool) : RtBool :=
  if (!a.isNull && !a.data) || (!b.isNull && !b.data) then
    { data := false, isNull := false }
  else if a.isNull || b.isNull then { data := false, isNull := true }
  else { data := a.data && b.data, isNull := false }

/-- Runtime behavior of the code generated by Value::LogicalOr.  Modelled from
the spec: the body is not under src/; the SQL three-valued OR truth table
(true is absorbing, null with anything non-true is null). -/
def LogicalOr (a b : RtBool) : RtBool :=
  if (!a.isNull && a.data) || (!b.isNull && b.data) then
    { data := true, isNull := false }
  else if a.isNull || b.isNull then { data := false, isNull := true }
  else { data := a.data || b.data, isNull := false }

/-- Kleene three-valued AND on Option Bool, the reference truth table used to
state properties of LogicalAnd and TestEquality. -/
def kleeneAnd : Option Bool → Option Bool → Option Bool
  | some false, _ => some false
  | _, some false => some false
  | some true, some true => some true
  | _, _ => none

/-- Runtime behavior of the code generated by Value::TestEquality.  Modelled
from the spec: the body is not under src/; the three-valued AND of pairwise
CompareEq across corresponding positions, with constant true for empty
inputs. -/
def TestEquality (lhs rhs : List RtValue) : RtBool :=
  (List.zipWith CompareEq lhs rhs).foldl LogicalAnd { data := true, isNull := false }

/-- The error policy parameter of the arithmetic operations (value.h line 84). -/
inductive OnError
  | ReturnNull
  | Exception
  deriving DecidableEq, Repr

/-- A runtime error signal raised by generated code under OnError::Exception,
distinguishable by kind so the executor can report a precise message. -/
inductive RuntimeError
  | overflow
  | divideByZero
  deriving DecidableEq, Repr

/-- Outcome of executing a piece of generated code over one row: a value, or a
raised runtime error. -/
inductive RtResult
  | ok (v : RtValue)
  | error (e : RuntimeError)
  deriving DecidableEq, Repr

/-- The canonical null runtime value (the data payload of a null result is
unspecified; zero stands in for it). -/
def nullRt : RtValue := { data := 0, len := 0, isNull := true }

/-- Smallest representable 64-bit signed integer. -/
def int64Min : Int := -(2 ^ 63)

/-- Largest representable 64-bit signed integer. -/
def int64Max : Int := 2 ^ 63 - 1

/-- Whether an exact integer result overflows the 64-bit signed range. -/
def overflows (x : Int) : Bool := decide (x < int64Min ∨ int64Max < x)

/-- The five binary arithmetic operations of value.h lines 86-95. -/
inductive ArithOp
  | add
  | sub
  | mul
  | div
  | mod
  deriving DecidableEq, Repr

/-- Exact integer meaning of an arithmetic operation (division and modulo
truncate toward zero, as machine integer division does). -/
def ArithOp.apply : ArithOp → Int → Int → Int
  | .add, x, y => x + y
  | .sub, x, y => x - y
  | .mul, x, y => x * y
  | .div, x, y => Int.tdiv x y
  | .mod, x, y => Int.tmod x y

/-- The detected fault condition of an arithmetic operation: overflow for
add/sub/mul, a zero divisor for div/mod. -/
def ArithOp.faultCondition : ArithOp → Int → Int → Bool
  | .add, x, y => overflows (x + y)
  | .sub, x, y => overflows (x - y)
  | .mul, x, y => overflows (x * y)
  | .div, _, y => decide (y = 0)
  | .mod, _, y => decide (y = 0)

/-- The kind of runtime error an operation raises on its fault condition,
so the executor can report a precise user-facing message. -/
def ArithOp.errorKind : ArithOp → RuntimeError
  | .div => .divideByZero
  | .mod => .divideByZero
  | _ => .overflow

/-- Runtime behavior of the code generated for Add/Sub/Mul/Div/Mod under an
error policy.  Modelled from the spec: the bodies are not under src/; a null
operand propagates to a null result; a detected fault becomes a null result
under ReturnNull and a raised runtime error under Exception; otherwise the
exact result is produced non-null. -/
def evalArith (op : ArithOp) (on_error : OnError) (a b : RtValue) : RtResult :=
  if a.isNull || b.isNull then .ok nullRt
  else if op.faultCondition a.data b.data then
    match on_error with
    | .ReturnNull => .ok nullRt
    | .Exception => .error op.errorKind
  else .ok { data := op.apply a.data b.data, len := 0, isNull := false }

/-- Value::Add runtime behavior (see evalArith). -/
def Add (a b : RtValue) (on_error : OnError) : RtResult := evalArith .add on_error a b

/-- Value::Sub runtime behavior (see evalArith). -/
def Sub (a b : RtValue) (on_error : OnError) : RtResult := evalArith .sub on_error a b

/-- Value::Mul runtime behavior (see evalArith). -/
def Mul (a b : RtValue) (on_error : OnError) : RtResult := evalArith .mul on_error a b

/-- Value::Div runtime behavior (see evalArith). -/
def Div (a b : RtValue) (on_error : OnError) : RtResult := evalArith .div on_error a b

/-- Value::Mod runtime behavior (see evalArith). -/
def Mod (a b : RtValue) (on_error : OnError) : RtResult := evalArith .mod on_error a b

/-- Compilation of an arithmetic operation over an already-reconciled common
type.  Modelled from the spec: compilation always succeeds under either error
policy; the policy only changes the runtime behavior of the emitted code. -/
def compileArith (op : ArithOp) (on_error : OnError) :
    Except String (RtValue → RtValue → RtResult) :=
  .ok (fun a b => evalArith op on_error a b)

/-- Value::Min runtime behavior.  Modelled from the spec: the body is not
under src/; Min only compares and selects (it detects no fault, so it can
never raise an error), skips a single null operand, and is null only when
both operands are null. -/
def Min (a b : RtValue) : RtResult :=
  .ok (if a.isNull && b.isNull then nullRt
    else if a.isNull then b
    else if b.isNull then a
    else if a.data ≤ b.data then a else b)

/-- Value::Max runtime behavior.  Modelled from the spec: the body is not
under src/; Max only compares and selects (it detects no fault, so it can
never raise an error), skips a single null operand, and is null only when
both operands are null. -/
def Max (a b : RtValue) : RtResult :=
  .ok (if a.isNull && b.isNull then nullRt
    else if a.isNull then b
    else if b.isNull then a
    else if b.data ≤ a.data then a else b)

/-- Compile-time type reconciliation performed by Value::BuildPHI.  Modelled
from the spec: the body is not under src/; every input must share the same
type identity — a mismatch (or an empty input set) is a compile-time failure —
and the merged type's null indicator is present iff any input is nullable. -/
def BuildPHICheck (ts : List SqlType) : Except String SqlType :=
  match ts with
  | [] => .error "BuildPHI requires at least one input value"
  | t :: rest =>
    if rest.all (fun u => u.type_id == t.type_id) then
      .ok { type_id := t.type_id, nullable := (t :: rest).any (fun u => u.nullable) }
    else .error "BuildPHI type identity mismatch"

/-- Runtime denotation of the PHI node built by Value::BuildPHI.  Modelled
from the spec: the body is not under src/; when control arrives via
predecessor block `taken`, the merged value is the value produced along that
branch (data, length and null indicator all select per-branch). -/
def BuildPHISelect (vals : List (RtValue × Nat)) (taken : Nat) : Option RtValue :=
  (vals.find? (fun p => p.snd == taken)).map (fun p => p.fst)

/-! ### Shared helper lemmas -/

theorem logicalAnd_toTri : ∀ a b : RtBool,
    (LogicalAnd a b).toTri = kleeneAnd a.toTri b.toTri := by
  decide

theorem obsEq_iff_toTri : ∀ a b : RtBool, RtBool.obsEq a b ↔ a.toTri = b.toTri := by
  simp only [RtBool.obsEq]
  decide

theorem kleeneAnd_assoc : ∀ x y z : Option Bool,
    kleeneAnd (kleeneAnd x y) z = kleeneAnd x (kleeneAnd y z) := by
  decide

theorem kleeneAnd_true_left : ∀ z : Option Bool, kleeneAnd (some true) z = z := by
  decide

theorem kleeneAnd_true_right : ∀ z : Option Bool, kleeneAnd z (some true) = z := by
  decide

theorem foldl_kleeneAnd_pull (l : List (Option Bool)) (x y : Option Bool) :
    l.foldl kleeneAnd (kleeneAnd x y) = kleeneAnd x (l.foldl kleeneAnd y) := by
  induction l generalizing x y with
  | nil => rfl
  | cons c l ih =>
    simp only [List.foldl_cons]
    rw [kleeneAnd_assoc, ih]

theorem foldl_kleeneAnd_init (l : List (Option Bool)) (x : Option Bool) :
    l.foldl kleeneAnd x = kleeneAnd x (l.foldl kleeneAnd (some true)) := by
  rw [← kleeneAnd_true_right x, foldl_kleeneAnd_pull, kleeneAnd_true_right]

theorem buildPHISelect_mem (vals : List (RtValue × Nat)) (v : RtValue) (blk : Nat)
    (hnodup : (vals.map Prod.snd).Nodup) (hmem : (v, blk) ∈ vals) :
    BuildPHISelect vals blk = some v := by
  induction vals with
  | nil => cases hmem
  | cons p rest ih =>
    obtain ⟨pv, pb⟩ := p
    rcases List.mem_cons.mp hmem with heq | hmemrest
    · rw [Prod.mk.injEq] at heq
      obtain ⟨h1, h2⟩ := heq
      subst h1
      subst h2
      simp [BuildPHISelect, List.find?]
    · have hblk : blk ∈ rest.map Prod.snd :=
        List.mem_map.mpr ⟨(v, blk), hmemrest, rfl⟩
      have hsimp : ((pv, pb) :: rest).map Prod.snd = pb :: rest.map Prod.snd := rfl
      rw [hsimp] at hnodup
      obtain ⟨hpb, htail⟩ := List.nodup_cons.mp hnodup
      have hne : (pb == blk) = false := by
        apply beq_eq_false_iff_ne.mpr
        intro hcontr
        exact hpb (hcontr ▸ hblk)
      have ihres := ih htail hmemrest
      simp only [BuildPHISelect, List.find?] at ihres ⊢
      simp only [hne]
      exact ihres

theorem toTri_foldl_logicalAnd (cs : List RtBool) (x : RtBool) :
    (cs.foldl LogicalAnd x).toTri = (cs.map RtBool.toTri).foldl kleeneAnd x.toTri := by
  induction cs generalizing x with
  | nil => rfl
  | cons c cs ih =>
    simp only [List.foldl_cons, List.map_cons]
    rw [ih, logicalAnd_toTri]

theorem compareForSort_char (a b : RtValue) :
    (CompareForSort a b = -1 ↔
      ((a.isNull = true ∧ b.isNull = false) ∨
       (a.isNull = false ∧ b.isNull = false ∧ a.data < b.data))) ∧
    (CompareForSort a b = 0 ↔
      ((a.isNull = true ∧ b.isNull = true) ∨
       (a.isNull = false ∧ b.isNull = false ∧ a.data = b.data))) ∧
    (CompareForSort a b = 1 ↔
      ((a.isNull = false ∧ b.isNull = true) ∨
       (a.isNull = false ∧ b.isNull = false ∧ b.data < a.data))) := by
  cases ha : a.isNull <;> cases hb : b.isNull
  · rcases lt_trichotomy a.data b.data with h | h | h
    · simp [CompareForSort, ha, hb, h, lt_asymm h]
      omega
    · simp [CompareForSort, ha, hb, h]
    · simp [CompareForSort, ha, hb, h, lt_asymm h]
      omega
  · simp [CompareForSort, ha, hb]
  · simp [CompareForSort, ha, hb]
  · simp [CompareForSort, ha, hb]

/-! ### Claim theorems -/

/-- C1: CompareEq(a, b) is null-valued iff a is null or b is null at runtime;
the result's null indicator is the logical OR of both operands' null
conditions, and when both operands are non-null the data result carries the
actual equality of the data payloads. -/
theorem claim_c1_compareEq_null (a b : RtValue) :
    ((CompareEq a b).isNull = true ↔ (a.isNull = true ∨ b.isNull = true)) ∧
    ((CompareEq a b).isNull = (a.isNull || b.isNull)) ∧
    (a.isNull = false → b.isNull = false →
      (CompareEq a b).isNull = false ∧
        (CompareEq a b).data = decide (a.data = b.data)) := by
  refine ⟨?_, rfl, ?_⟩
  · simp [CompareEq]
  · intro ha hb
    simp [CompareEq, ha, hb]

/-- Witness for C1 at concrete non-null operands 4 and 7. -/
theorem claim_c1_witness :
    (CompareEq { data := 4, len := 0, isNull := false }
        { data := 7, len := 0, isNull := false }).isNull = false ∧
    (CompareEq { data := 4, len := 0, isNull := false }
        { data := 7, len := 0, isNull := false }).data = decide ((4 : Int) = 7) :=
  (claim_c1_compareEq_null { data := 4, len := 0, isNull := false }
    { data := 7, len := 0, isNull := false }).2.2 rfl rfl

/-- C4: LogicalAnd and LogicalOr implement the SQL three-valued truth tables
exactly: false AND x = false for any x (null included), true AND true = true,
true AND null = null, null AND null = null; true OR x = true for any x,
false OR false = false, false OR null = null, null OR null = null (a null
result is the one whose three-valued denotation is none). -/
theorem claim_c4_logical_truth_tables :
    (∀ x : RtBool, LogicalAnd { data := false, isNull := false } x =
        { data := false, isNull := false }) ∧
    (∀ x : RtBool, LogicalAnd x { data := false, isNull := false } =
        { data := false, isNull := false }) ∧
    (LogicalAnd { data := true, isNull := false } { data := true, isNull := false } =
        { data := true, isNull := false }) ∧
    (∀ d : Bool, (LogicalAnd { data := true, isNull := false }
        { data := d, isNull := true }).toTri = none) ∧
    (∀ d e : Bool, (LogicalAnd { data := d, isNull := true }
        { data := e, isNull := true }).toTri = none) ∧
    (∀ x : RtBool, LogicalOr { data := true, isNull := false } x =
        { data := true, isNull := false }) ∧
    (∀ x : RtBool, LogicalOr x { data := true, isNull := false } =
        { data := true, isNull := false }) ∧
    (LogicalOr { data := false, isNull := false } { data := false, isNull := false } =
        { data := false, isNull := false }) ∧
    (∀ d : Bool, (LogicalOr { data := false, isNull := false }
        { data := d, isNull := true }).toTri = none) ∧
    (∀ d e : Bool, (LogicalOr { data := d, isNull := true }
        { data := e, isNull := true }).toTri = none) ∧
    (∀ a b : RtBool, (LogicalAnd a b).toTri = kleeneAnd a.toTri b.toTri) := by
  decide

/-- C9: for a Value of non-nullable type, IsNull is the compile-time constant
false and IsNotNull the compile-time constant true, with no register
materialized; for a Value of nullable type with a stored null indicator,
IsNull reads that register and IsNotNull negates it. -/
theorem claim_c9_isNull_isNotNull (v : Value) :
    (v.IsNullable = false →
      v.IsNull = SymBool.const false ∧ v.IsNotNull = SymBool.const true ∧
        SymBool.usesRegister v.IsNull = false ∧
        SymBool.usesRegister v.IsNotNull = false) ∧
    (∀ r : Reg, v.IsNullable = true → v.null_ = some r →
      v.IsNull = SymBool.read r ∧ v.IsNotNull = SymBool.negRead r) := by
  constructor
  · intro h
    simp [Value.IsNull, Value.IsNotNull, h, SymBool.usesRegister]
  · intro r h hn
    simp [Value.IsNull, Value.IsNotNull, h, hn]

/-- Witness for C9: a non-nullable integer Value and a nullable one holding a
null-indicator register. -/
theorem claim_c9_witness :
    (Value.construct { type_id := TypeId.integer, nullable := false }
        (some 0) none none).IsNull = SymBool.const false ∧
    (Value.construct { type_id := TypeId.integer, nullable := true }
        (some 0) none (some 1)).IsNull = SymBool.read 1 :=
  ⟨((claim_c9_isNull_isNotNull (Value.construct
      { type_id := TypeId.integer, nullable := false } (some 0) none none)).1 rfl).1,
   ((claim_c9_isNull_isNotNull (Value.construct
      { type_id := TypeId.integer, nullable := true } (some 0) none (some 1))).2 1 rfl rfl).1⟩

/-- C10: a Value constructed from a type descriptor and registers returns
exactly those components from its accessors, IsNullable holds iff the type's
nullability flag is set, and the default-constructed Value carries no
registers, making it distinguishable from any properly constructed Value
(one holding a data register). -/
theorem claim_c10_construct_accessors :
    (∀ (t : SqlType) (val len nul : Option Reg),
      (Value.construct t val len nul).GetType = t ∧
        (Value.construct t val len nul).GetValue = val ∧
        (Value.construct t val len nul).GetLength = len ∧
        ((Value.construct t val len nul).IsNullable = true ↔ t.nullable = true)) ∧
    Value.mkDefault.GetValue = none ∧
    Value.mkDefault.GetLength = none ∧
    (∀ (t : SqlType) (r : Reg) (len nul : Option Reg),
      Value.construct t (some r) len nul ≠ Value.mkDefault) := by
  refine ⟨fun t val len nul => ⟨rfl, rfl, rfl, Iff.rfl⟩, rfl, rfl, ?_⟩
  intro t r len nul h
  have := congrArg Value.GetValue h
  simp [Value.construct, Value.mkDefault, Value.GetValue] at this

/-- Witness for C10: a concrete constructed Value differs from the default
sentinel. -/
theorem claim_c10_witness :
    Value.construct { type_id := TypeId.integer, nullable := true }
      (some 0) none (some 1) ≠ Value.mkDefault :=
  claim_c10_construct_accessors.2.2.2
    { type_id := TypeId.integer, nullable := true } 0 none (some 1)

/-- C2: CompareForSort is a total order: every comparison yields a definite
decision in {-1, 0, 1} (its result is a plain integer, never null), the order
is antisymmetric, on non-null operands the three outcomes characterize
trichotomy on the data payloads, the strict order and the equivalence are
transitive, nulls compare equal to each other, and a null operand
consistently sorts before every non-null operand. -/
theorem claim_c2_compareForSort_total_order :
    (∀ a b : RtValue,
      CompareForSort a b = -1 ∨ CompareForSort a b = 0 ∨ CompareForSort a b = 1) ∧
    (∀ a b : RtValue, CompareForSort b a = -CompareForSort a b) ∧
    (∀ a b : RtValue, a.isNull = false → b.isNull = false →
      ((CompareForSort a b = 0 ↔ a.data = b.data) ∧
       (CompareForSort a b = -1 ↔ a.data < b.data) ∧
       (CompareForSort a b = 1 ↔ b.data < a.data))) ∧
    (∀ a b c : RtValue, CompareForSort a b = -1 → CompareForSort b c = -1 →
      CompareForSort a c = -1) ∧
    (∀ a b c : RtValue, CompareForSort a b = 0 → CompareForSort b c = 0 →
      CompareForSort a c = 0) ∧
    (∀ a b : RtValue, a.isNull = true → b.isNull = true → CompareForSort a b = 0) ∧
    (∀ a b : RtValue, a.isNull = true → b.isNull = false → CompareForSort a b = -1) := by
  refine ⟨?_, ?_, ?_, ?_, ?_, ?_, ?_⟩
  · intro a b
    unfold CompareForSort
    split_ifs <;> simp
  · intro a b
    cases ha : a.isNull <;> cases hb : b.isNull <;>
      simp [CompareForSort, ha, hb] <;> split_ifs <;> omega
  · intro a b ha hb
    have h := compareForSort_char a b
    simp [ha, hb] at h
    exact ⟨h.2.1, h.1, h.2.2⟩
  · intro a b c hab hbc
    rw [(compareForSort_char a b).1] at hab
    rw [(compareForSort_char b c).1] at hbc
    rw [(compareForSort_char a c).1]
    rcases hab with ⟨ha1, hb1⟩ | ⟨ha1, hb1, h1⟩ <;>
      rcases hbc with ⟨hb2, hc2⟩ | ⟨hb2, hc2, h2⟩
    · exact absurd hb2 (by simp [hb1])
    · exact Or.inl ⟨ha1, hc2⟩
    · exact absurd hb2 (by simp [hb1])
    · exact Or.inr ⟨ha1, hc2, h1.trans h2⟩
  · intro a b c hab hbc
    rw [(compareForSort_char a b).2.1] at hab
    rw [(compareForSort_char b c).2.1] at hbc
    rw [(compareForSort_char a c).2.1]
    rcases hab with ⟨ha1, hb1⟩ | ⟨ha1, hb1, h1⟩ <;>
      rcases hbc with ⟨hb2, hc2⟩ | ⟨hb2, hc2, h2⟩
    · exact Or.inl ⟨ha1, hc2⟩
    · exact absurd hb2 (by simp [hb1])
    · exact absurd hb2 (by simp [hb1])
    · exact Or.inr ⟨ha1, hc2, h1.trans h2⟩
  · intro a b ha hb
    exact (compareForSort_char a b).2.1.mpr (Or.inl ⟨ha, hb⟩)
  · intro a b ha hb
    exact (compareForSort_char a b).1.mpr (Or.inl ⟨ha, hb⟩)

/-- Witness for C2: a null value sorts before a non-null one, and two null
values compare equal. -/
theorem claim_c2_witness :
    CompareForSort { data := 5, len := 0, isNull := true }
      { data := 2, len := 0, isNull := false } = -1 ∧
    CompareForSort { data := 5, len := 0, isNull := true }
      { data := 9, len := 0, isNull := true } = 0 :=
  ⟨claim_c2_compareForSort_total_order.2.2.2.2.2.2
      { data := 5, len := 0, isNull := true }
      { data := 2, len := 0, isNull := false } rfl rfl,
   claim_c2_compareForSort_total_order.2.2.2.2.2.1
      { data := 5, len := 0, isNull := true }
      { data := 9, len := 0, isNull := true } rfl rfl⟩

/-- C3: on non-null operands hitting the detected fault condition (overflow,
or a zero divisor for div/mod), Add/Sub/Mul/Div/Mod under OnError::ReturnNull
yields a null result and no runtime fault, under OnError::Exception the same
inputs raise a runtime error when the generated code executes; ReturnNull
never produces a runtime fault on any input; and compilation itself always
succeeds under either policy. -/
theorem claim_c3_arith_on_error (op : ArithOp) (a b : RtValue)
    (ha : a.isNull = false) (hb : b.isNull = false)
    (hf : ArithOp.faultCondition op a.data b.data = true) :
    evalArith op OnError.ReturnNull a b = RtResult.ok nullRt ∧
    evalArith op OnError.Exception a b = RtResult.error op.errorKind ∧
    (∀ x y : RtValue, ∃ v, evalArith op OnError.ReturnNull x y = RtResult.ok v) ∧
    (∀ p : OnError, ∃ f, compileArith op p = Except.ok f) := by
  refine ⟨?_, ?_, ?_, fun p => ⟨_, rfl⟩⟩
  · simp [evalArith, ha, hb, hf]
  · simp [evalArith, ha, hb, hf]
  · intro x y
    unfold evalArith
    split
    · exact ⟨_, rfl⟩
    · split
      · exact ⟨_, rfl⟩
      · exact ⟨_, rfl⟩

/-- Witness for C3: adding one to the largest 64-bit integer overflows; the
result is null under ReturnNull and a raised overflow error under
Exception. -/
theorem claim_c3_witness :
    Add { data := int64Max, len := 0, isNull := false }
      { data := 1, len := 0, isNull := false } OnError.ReturnNull =
        RtResult.ok nullRt ∧
    Add { data := int64Max, len := 0, isNull := false }
      { data := 1, len := 0, isNull := false } OnError.Exception =
        RtResult.error RuntimeError.overflow :=
  ⟨(claim_c3_arith_on_error ArithOp.add
      { data := int64Max, len := 0, isNull := false }
      { data := 1, len := 0, isNull := false } rfl rfl (by decide)).1,
   (claim_c3_arith_on_error ArithOp.add
      { data := int64Max, len := 0, isNull := false }
      { data := 1, len := 0, isNull := false } rfl rfl (by decide)).2.1⟩

/-- C5: reconstructing a Value from its materialized registers yields a Value
observably equivalent to the original — same type, same null status, same
data register and same length register — for every Value of every type
category (fixed- or variable-length, nullable or not). -/
theorem claim_c5_materialization_round_trip (v : Value) :
    Value.obsEq
      (Value.ValueFromMaterialization v.GetType
        (Value.ValuesForMaterialization v).1
        (Value.ValuesForMaterialization v).2.1
        (Value.ValuesForMaterialization v).2.2) v := by
  rcases v with ⟨t, val, len, nul⟩
  cases hn : t.nullable <;> cases nul <;>
    simp [Value.obsEq, Value.ValueFromMaterialization, Value.ValuesForMaterialization,
      Value.IsNull, Value.IsNullable, Value.GetType, Value.GetValue, Value.GetLength, hn]

/-- C6: TestEquality of two empty sequences is the constant true, TestEquality
of singletons is observably CompareEq of the elements, and on longer
sequences it is the three-valued AND of the head comparison with the
TestEquality of the tails — i.e. the three-valued AND of pairwise CompareEq
across corresponding positions. -/
theorem claim_c6_testEquality (a b : RtValue) (ls rs : List RtValue) :
    TestEquality [] [] = { data := true, isNull := false } ∧
    RtBool.obsEq (TestEquality [a] [b]) (CompareEq a b) ∧
    RtBool.obsEq (TestEquality (a :: ls) (b :: rs))
      (LogicalAnd (CompareEq a b) (TestEquality ls rs)) := by
  refine ⟨rfl, ?_, ?_⟩
  · rw [obsEq_iff_toTri]
    have h1 : TestEquality [a] [b] =
        LogicalAnd { data := true, isNull := false } (CompareEq a b) := rfl
    rw [h1, logicalAnd_toTri]
    have h3 : RtBool.toTri { data := true, isNull := false } = some true := rfl
    rw [h3, kleeneAnd_true_left]
  · rw [obsEq_iff_toTri]
    simp only [TestEquality, List.zipWith_cons_cons, List.foldl_cons,
      toTri_foldl_logicalAnd, logicalAnd_toTri]
    have h3 : RtBool.toTri { data := true, isNull := false } = some true := rfl
    rw [h3, kleeneAnd_true_left, foldl_kleeneAnd_init]

/-- Witness for C6 at concrete singleton inputs. -/
theorem claim_c6_witness :
    (TestEquality [{ data := 3, len := 0, isNull := false }]
        [{ data := 3, len := 0, isNull := false }]).isNull =
      (CompareEq { data := 3, len := 0, isNull := false }
        { data := 3, len := 0, isNull := false }).isNull :=
  (claim_c6_testEquality { data := 3, len := 0, isNull := false }
    { data := 3, len := 0, isNull := false } [] []).2.1.1

/-- C7: Min and Max with one null and one non-null operand return the
non-null operand, with both operands null they return a null result, and
they never raise a runtime error on any input (they only compare and
select). -/
theorem claim_c7_min_max (a b : RtValue) :
    (a.isNull = true → b.isNull = false →
      Min a b = RtResult.ok b ∧ Max a b = RtResult.ok b) ∧
    (a.isNull = false → b.isNull = true →
      Min a b = RtResult.ok a ∧ Max a b = RtResult.ok a) ∧
    (a.isNull = true → b.isNull = true →
      (∃ v, Min a b = RtResult.ok v ∧ v.isNull = true) ∧
      (∃ v, Max a b = RtResult.ok v ∧ v.isNull = true)) ∧
    (∀ x y : RtValue, ∃ v, Min x y = RtResult.ok v) ∧
    (∀ x y : RtValue, ∃ v, Max x y = RtResult.ok v) := by
  refine ⟨?_, ?_, ?_, fun x y => ⟨_, rfl⟩, fun x y => ⟨_, rfl⟩⟩
  · intro ha hb
    constructor <;> simp [Min, Max, ha, hb]
  · intro ha hb
    constructor <;> simp [Min, Max, ha, hb]
  · intro ha hb
    refine ⟨⟨nullRt, ?_, rfl⟩, ⟨nullRt, ?_, rfl⟩⟩ <;> simp [Min, Max, ha, hb]

/-- Witness for C7: Min/Max of a null and the non-null value 8 return the
value 8. -/
theorem claim_c7_witness :
    Min { data := 3, len := 0, isNull := true } { data := 8, len := 0, isNull := false } =
      RtResult.ok { data := 8, len := 0, isNull := false } ∧
    Max { data := 3, len := 0, isNull := true } { data := 8, len := 0, isNull := false } =
      RtResult.ok { data := 8, len := 0, isNull := false } :=
  (claim_c7_min_max { data := 3, len := 0, isNull := true }
    { data := 8, len := 0, isNull := false }).1 rfl rfl

/-- C8: the merged PHI value observably equals the value of whichever
predecessor block control actually arrived from (given distinct predecessor
blocks); a type-identity mismatch among the inputs is a compile-time
failure of BuildPHI, never a runtime condition; and on identically-typed
inputs the merged type carries a null indicator iff any input is
nullable. -/
theorem claim_c8_buildPHI (vals : List (RtValue × Nat)) (v : RtValue) (blk : Nat)
    (hnodup : (vals.map Prod.snd).Nodup) (hmem : (v, blk) ∈ vals) :
    BuildPHISelect vals blk = some v ∧
    (∀ ts : List SqlType, ∀ t1 t2 : SqlType, t1 ∈ ts → t2 ∈ ts →
      t1.type_id ≠ t2.type_id → ∃ msg, BuildPHICheck ts = Except.error msg) ∧
    (∀ (t : SqlType) (rest : List SqlType), (∀ u ∈ rest, u.type_id = t.type_id) →
      BuildPHICheck (t :: rest) =
        Except.ok { type_id := t.type_id,
                    nullable := (t :: rest).any (fun u => u.nullable) }) := by
  refine ⟨buildPHISelect_mem vals v blk hnodup hmem, ?_, ?_⟩
  · intro ts t1 t2 h1 h2 hne
    cases ts with
    | nil => exact absurd h1 (List.not_mem_nil _)
    | cons t rest =>
      simp only [BuildPHICheck]
      split
      · rename_i hall
        exfalso
        have hid : ∀ u ∈ t :: rest, u.type_id = t.type_id := by
          intro u hu
          rcases List.mem_cons.mp hu with rfl | hu2
          · rfl
          · exact eq_of_beq (List.all_eq_true.mp hall u hu2)
        exact hne ((hid t1 h1).trans (hid t2 h2).symm)
      · exact ⟨_, rfl⟩
  · intro t rest hall
    have hc : rest.all (fun u => u.type_id == t.type_id) = true :=
      List.all_eq_true.mpr fun u hu => beq_of_eq (hall u hu)
    simp [BuildPHICheck, hc]

/-- Witness for C8: with two distinct predecessor blocks 0 and 1, arriving
via block 1 selects the second branch's value. -/
theorem claim_c8_witness :
    BuildPHISelect [({ data := 10, len := 0, isNull := false }, 0),
      ({ data := 20, len := 0, isNull := false }, 1)] 1 =
      some { data := 20, len := 0, isNull := false } :=
  (claim_c8_buildPHI [({ data := 10, len := 0, isNull := false }, 0),
      ({ data := 20, len := 0, isNull := false }, 1)]
    { data := 20, len := 0, isNull := false } 1 (by decide) (by decide)).1

end Codegen
end Peloton
